import Mathlib

/-!
Shallow embedding of the Gmail history filter proxy (src/index.js).

The model covers: the intake webhook (app.post at lines 93-130), the
notification queue and single-flight lock (isProcessingQueue,
notificationQueue), the resolution worker processItemFromQueue
(lines 133-273) with its cold-start initialization branch, the
stale-cursor skip, the per-batch dedup/verify/forward loop, and the
startup seeding from the Google Sheet (lines 277-306).

External collaborators (OAuth token endpoint, Google Sheets, the Gmail
history/profile/messages APIs, and the n8n forward webhook) are modelled
by an environment record giving the outcome of each outbound call during
one resolution cycle.  Every outbound call the worker performs is logged
in a call list so that claims about which collaborators are contacted can
be stated.
-/

namespace MMGmailFilterProxy

abbrev HistoryId := Nat
abbrev GmailMsgId := String

/-- Outcome of getAccessToken (src/index.js lines 28-41): the oauth
exchange either yields a token or throws. -/
inductive TokenResult where
  | ok
  | fail
deriving DecidableEq

/-- Environment-visible outcome of readLastHistoryIdFromSheet
(src/index.js lines 44-68): no sheet configured, a value present at the
range, an empty range, or an HTTP error.  The function catches its own
errors, so the caller sees only some value or null. -/
inductive SheetReadEnv where
  | noSheet
  | value (v : HistoryId)
  | empty
  | error
deriving DecidableEq

/-- Return value of readLastHistoryIdFromSheet as seen by its caller:
only a present value yields some; "no sheet", "empty" and "HTTP error"
all return null (the catch at line 61 swallows errors). -/
def readLastHistoryIdFromSheet : SheetReadEnv → Option HistoryId
  | .value v => some v
  | _ => none

/-- Whether readLastHistoryIdFromSheet performs an HTTP call: it does
unless GOOGLE_SHEET_ID is unset (early return at line 45). -/
def sheetReadCalls : SheetReadEnv → Bool
  | .noSheet => false
  | _ => true

/-- Environment-visible outcome of writeLastHistoryIdToSheet
(src/index.js lines 70-90). -/
inductive SheetWriteEnv where
  | noSheet
  | ok
  | error
deriving DecidableEq

/-- Return value of writeLastHistoryIdToSheet as seen by its caller:
true only on a successful write; errors are caught at line 83 and become
false.  The function never throws. -/
def writeLastHistoryIdToSheet : SheetWriteEnv → Bool
  | .ok => true
  | _ => false

/-- Whether writeLastHistoryIdToSheet performs an HTTP call: it does
unless GOOGLE_SHEET_ID is unset (early return at line 71). -/
def sheetWriteCalls : SheetWriteEnv → Bool
  | .noSheet => false
  | _ => true

/-- Outcome of the Gmail users.getProfile call (line 169): the mailbox's
current historyId, or a thrown error. -/
inductive ProfileFetch where
  | ok (historyId : HistoryId)
  | fail
deriving DecidableEq

/-- messageAddedEntry.message: the Gmail message reference inside one
messagesAdded entry; its id may be missing (the code guards with a JS
truthiness check at line 214). -/
structure GmailMessageRef where
  id : Option GmailMsgId
deriving DecidableEq

structure MessageAddedEntry where
  message : GmailMessageRef
deriving DecidableEq

/-- One record of historyResponse.data.history; messagesAdded may be
absent (guard at line 211). -/
structure HistoryRecord where
  messagesAdded : Option (List MessageAddedEntry)
deriving DecidableEq

/-- Outcome of the Gmail users.history.list call (lines 199-202). -/
inductive HistoryFetch where
  | ok (history : List HistoryRecord)
  | fail
deriving DecidableEq

/-- Outcome of the per-item users.messages.get call (lines 217-220):
the message's labelIds, or a thrown/timeout error. -/
inductive MsgFetch where
  | ok (labelIds : List String)
  | fail

/-- Outcome of the per-item forward POST to the n8n webhook
(lines 233-236): success, or a thrown/timeout error. -/
inductive ForwardResult where
  | ok
  | fail

/-- Outcomes of every outbound call one resolution cycle can make. -/
structure Env where
  token : TokenResult
  sheetRead : SheetReadEnv
  profile : ProfileFetch
  history : HistoryFetch
  msgGet : GmailMsgId → MsgFetch
  forward : GmailMsgId → ForwardResult
  sheetWrite : SheetWriteEnv

/-- One logged outbound call. -/
inductive Call where
  | token
  | sheetRead
  | sheetWrite (v : HistoryId)
  | profileGet
  | historyList (startHistoryId : HistoryId)
  | msgGet (id : GmailMsgId)
  | forward (id : GmailMsgId)
deriving DecidableEq

/-- Calls addressed to the Change Source Client (the Gmail API): the
profile baseline fetch, the history listing, and the per-item message
(tag) fetch. -/
def Call.isChangeSource : Call → Bool
  | .profileGet => true
  | .historyList _ => true
  | .msgGet _ => true
  | _ => false

/-- Calls addressed to the Forward Sink (the n8n webhook). -/
def Call.isForwardSink : Call → Bool
  | .forward _ => true
  | _ => false

/-- HTTP response eventually sent on the queued request's res handle. -/
inductive Response where
  | ok (body : String)
  | serverError (body : String)
deriving DecidableEq

/-- The engine's synchronization state (src/index.js lines 18-21):
lastProcessedHistoryId, isInitialisedThisRun, initInProgress. -/
structure SyncState where
  lastProcessedHistoryId : Option HistoryId
  isInitialisedThisRun : Bool
  initInProgress : Bool
deriving DecidableEq

/-- One queued notification (the fields of the object pushed at
line 115, reduced to what the worker consumes). -/
structure QueuedNotification where
  currentNotificationHistoryId : HistoryId
deriving DecidableEq

/-- How one dequeued notification's cycle ends: a response is sent on
its res handle, or the notification is pushed back to the front of the
queue with no response (lines 155 and 190). -/
inductive CycleOutcome where
  | responded (r : Response)
  | requeued
deriving DecidableEq

/-- Result of the body of processItemFromQueue for one dequeued
notification: the new sync state, the logged outbound calls in order,
and how the cycle ended. -/
structure CycleResult where
  sync : SyncState
  calls : List Call
  outcome : CycleOutcome

/-- JS truthiness of messageAddedEntry.message.id (line 214): the id
must be present and nonempty. -/
def truthyId : Option GmailMsgId → Option GmailMsgId
  | some s => if s = "" then none else some s
  | none => none

/-- Flatten history records to their messagesAdded entries in order
(the nested for loops at lines 210-212; a record without messagesAdded
contributes nothing). -/
def allEntries (records : List HistoryRecord) : List MessageAddedEntry :=
  records.flatMap fun r => r.messagesAdded.getD []

/-- The truthy gmail message ids of a batch, in encounter order, with
multiplicity (before dedup). -/
def entryIds (entries : List MessageAddedEntry) : List GmailMsgId :=
  entries.filterMap fun e => truthyId e.message.id

/-- The calls made for one new (not yet seen) gmail message id
(lines 216-244): one messages.get, then one forward POST when the
message carries the INBOX label; fetch and forward errors are caught by
the per-item try/catch and change nothing but the forwarded count. -/
def itemCalls (env : Env) (gmailMsgId : GmailMsgId) : List Call :=
  match env.msgGet gmailMsgId with
  | .fail => [Call.msgGet gmailMsgId]
  | .ok labelIds =>
    if labelIds.contains "INBOX" then [Call.msgGet gmailMsgId, Call.forward gmailMsgId]
    else [Call.msgGet gmailMsgId]

/-- The per-item loop over the batch (lines 208-248): skip falsy or
already-seen ids, otherwise process the item and add its id to
processedGmailMessageIdsInBatch (line 245, reached on success and on
caught per-item failure alike).  Returns the final seen set and the
logged calls. -/
def processEntries (env : Env) :
    List GmailMsgId → List MessageAddedEntry → List GmailMsgId × List Call
  | seen, [] => (seen, [])
  | seen, e :: rest =>
    match truthyId e.message.id with
    | none => processEntries env seen rest
    | some gmailMsgId =>
      if seen.contains gmailMsgId then processEntries env seen rest
      else
        let r := processEntries env (seen ++ [gmailMsgId]) rest
        (r.1, itemCalls env gmailMsgId ++ r.2)

/-- The 500 body built at line 266. -/
def serverErrorProcessing (n : QueuedNotification) : Response :=
  .serverError ("Internal Server Error - Failed processing historyId "
    ++ toString n.currentNotificationHistoryId ++ ".")

/-- The cold-start initialization branch (lines 160-184), entered with
the token in hand, isInitialisedThisRun false and initInProgress false.
Reads the sheet; if that yields a value, adopts it; otherwise fetches
the profile baseline and best-effort writes it to the sheet (the write's
result is ignored at line 174).  A profile-fetch error is caught at
line 179: 500 response, state untouched.  initInProgress is cleared in
the finally at line 183 in every case. -/
def coldStart (sync : SyncState) (env : Env) : CycleResult :=
  let readCall := if sheetReadCalls env.sheetRead then [Call.sheetRead] else []
  match readLastHistoryIdFromSheet env.sheetRead with
  | some idFromSheet =>
    ⟨⟨some idFromSheet, true, false⟩, readCall, .responded (.ok "OK - Initialized state.")⟩
  | none =>
    match env.profile with
    | .fail =>
      ⟨{ sync with initInProgress := false }, readCall ++ [Call.profileGet],
        .responded (.serverError "Internal Server Error - Initialization failed.")⟩
    | .ok baseline =>
      let writeCall := if sheetWriteCalls env.sheetWrite then [Call.sheetWrite baseline] else []
      ⟨⟨some baseline, true, false⟩, readCall ++ [Call.profileGet] ++ writeCall,
        .responded (.ok "OK - Initialized state.")⟩

/-- The normal processing branch (lines 185-260), entered with the token
in hand, isInitialisedThisRun true and lastProcessedHistoryId = some
last.  Stale cursors are skipped with a 200 (lines 194-196); otherwise
the history window is fetched (a throw is caught at line 262 and becomes
a 500 with state untouched), the batch is walked with per-item dedup,
lastProcessedHistoryId advances to the notification's cursor
(line 256), the sheet write is best-effort (line 258), and a 200 is
sent. -/
def normalProcess (sync : SyncState) (last : HistoryId) (n : QueuedNotification)
    (env : Env) : CycleResult :=
  if n.currentNotificationHistoryId ≤ last then
    ⟨sync, [], .responded (.ok "OK - Old or duplicate event.")⟩
  else
    match env.history with
    | .fail => ⟨sync, [Call.historyList last], .responded (serverErrorProcessing n)⟩
    | .ok historyRecords =>
      let batchCalls := (processEntries env [] (allEntries historyRecords)).2
      let writeCall :=
        if sheetWriteCalls env.sheetWrite then [Call.sheetWrite n.currentNotificationHistoryId]
        else []
      ⟨{ sync with lastProcessedHistoryId := some n.currentNotificationHistoryId },
        [Call.historyList last] ++ batchCalls ++ writeCall,
        .responded (.ok "OK - Processing complete.")⟩

/-- The worker body after the token was obtained (lines 152-260): the
cold-start branch when isInitialisedThisRun is false (with the
initInProgress re-queue guard at lines 153-158), else the defensive
null-cursor re-queue (lines 187-191), else normal processing. -/
def afterToken (sync : SyncState) (n : QueuedNotification) (env : Env) : CycleResult :=
  if sync.isInitialisedThisRun then
    match sync.lastProcessedHistoryId with
    | none => ⟨{ sync with isInitialisedThisRun := false }, [], .requeued⟩
    | some last => normalProcess sync last n env
  else
    if sync.initInProgress then ⟨sync, [], .requeued⟩
    else coldStart sync env

/-- One full resolution cycle for a dequeued notification (the try block
of processItemFromQueue, lines 148-267): first the token acquisition; a
token failure is caught at line 262 and becomes a 500 with state
untouched.  Every cycle's first outbound call is the token exchange. -/
def runCycle (sync : SyncState) (n : QueuedNotification) (env : Env) : CycleResult :=
  match env.token with
  | .fail => ⟨sync, [Call.token], .responded (serverErrorProcessing n)⟩
  | .ok =>
    let r := afterToken sync n env
    ⟨r.sync, Call.token :: r.calls, r.outcome⟩

/-- The whole engine state around the worker: the single-flight lock,
the FIFO queue and the sync state. -/
structure EngineState where
  isProcessingQueue : Bool
  notificationQueue : List QueuedNotification
  sync : SyncState
deriving DecidableEq

/-- Result of one processItemFromQueue invocation run atomically to
completion: the engine state afterwards, the response sent to the
dequeued notification's caller (none when nothing was dequeued or the
item was re-queued), and the logged calls. -/
structure DrainResult where
  engine : EngineState
  response : Option Response
  calls : List Call
deriving DecidableEq

/-- processItemFromQueue (lines 133-273) as one atomic step: return
immediately when the lock is held or the queue is empty (lines 134-141);
otherwise take the lock, shift the head, run the cycle, and in the
finally release the lock (line 269; re-queue paths restore the item at
the front via unshift before releasing).  The trailing
process.nextTick(processItemFromQueue) re-trigger corresponds to
invoking this step again. -/
def processItemFromQueue (s : EngineState) (env : Env) : DrainResult :=
  if s.isProcessingQueue then ⟨s, none, []⟩
  else
    match s.notificationQueue with
    | [] => ⟨s, none, []⟩
    | n :: rest =>
      let r := runCycle s.sync n env
      match r.outcome with
      | .responded resp => ⟨⟨false, rest, r.sync⟩, some resp, r.calls⟩
      | .requeued => ⟨⟨false, n :: rest, r.sync⟩, none, r.calls⟩

/-- The decoded JSON payload; its historyId field may be absent. -/
structure PubSubPayload where
  historyId : Option Nat

/-- Decoded Pub/Sub data: either a JSON payload or undecodable garbage
(the catch at lines 123-126). -/
inductive PubSubData where
  | decodable (payload : PubSubPayload)
  | garbage

/-- req.body.message: data may be absent (guard at line 98). -/
structure PubSubMessage where
  data : Option PubSubData

/-- One inbound webhook request body. -/
structure IntakeRequest where
  message : Option PubSubMessage

/-- Result of the webhook handler: the immediate HTTP status (some 400
on rejection; none when the response is deferred to the worker), the
queue afterwards, and whether processItemFromQueue was triggered. -/
structure IntakeResult where
  status : Option Nat
  notificationQueue : List QueuedNotification
  drainTriggered : Bool
deriving DecidableEq

/-- The webhook endpoint (app.post, lines 93-130): reject with 400 when
message or message.data is missing, when the data cannot be decoded, or
when the decoded payload's historyId is JS-falsy (absent, or the number
0, line 109); otherwise push the notification and trigger
processItemFromQueue without awaiting it (line 129). -/
def handleWebhook (req : IntakeRequest) (queue : List QueuedNotification) : IntakeResult :=
  match req.message with
  | none => ⟨some 400, queue, false⟩
  | some pubsubMessage =>
    match pubsubMessage.data with
    | none => ⟨some 400, queue, false⟩
    | some d =>
      match d with
      | .garbage => ⟨some 400, queue, false⟩
      | .decodable payload =>
        match payload.historyId with
        | none => ⟨some 400, queue, false⟩
        | some h =>
          if h = 0 then ⟨some 400, queue, false⟩
          else ⟨none, queue ++ [⟨h⟩], true⟩

/-- The startup environment (app.listen callback, lines 277-306):
either GOOGLE_SHEET_ID is unset, or the startup token fetch and sheet
read run with the given outcomes. -/
inductive StartupEnv where
  | noSheet
  | sheet (token : TokenResult) (read : SheetReadEnv)

/-- The sync state right after startup (lines 281-304): initialized only
when the sheet read yielded a value; any startup error leaves the state
uninitialized; initInProgress is cleared in the finally at line 302. -/
def startupState : StartupEnv → SyncState
  | .noSheet => ⟨none, false, false⟩
  | .sheet .fail _ => ⟨none, false, false⟩
  | .sheet .ok r =>
    match readLastHistoryIdFromSheet r with
    | some v => ⟨some v, true, false⟩
    | none => ⟨none, false, false⟩

/-- A sequence of resolution cycles applied to the sync state. -/
def runCycles (s : SyncState) (steps : List (QueuedNotification × Env)) : SyncState :=
  steps.foldl (fun st p => (runCycle st p.1 p.2).sync) s

/-- The reachability invariant of the sync state: while
isInitialisedThisRun is false, no lastProcessedHistoryId is set.  (The
forced re-initialization at lines 188-191 clears the flag only when the
cursor is already null, and failed cold starts leave the null cursor in
place.) -/
def SyncInv (s : SyncState) : Prop :=
  s.isInitialisedThisRun = false → s.lastProcessedHistoryId = none

/-- Interleaving model for the single-flight property.  activeCycles
holds the notifications whose resolution cycle has started (dequeued at
line 144) and not yet reached the finally at line 268; the JS event loop
lets other invocations of processItemFromQueue and the webhook handler
run while a cycle is suspended at an await. -/
structure Sys where
  isProcessingQueue : Bool
  activeCycles : List QueuedNotification
  notificationQueue : List QueuedNotification
  sync : SyncState

/-- Interleaved events: a webhook enqueue; the synchronous head of a
processItemFromQueue invocation (lines 134-146: lock/empty checks,
lock acquisition and dequeue); and the completion of an active cycle
(its body plus the finally at lines 268-272). -/
inductive Event where
  | enqueue (n : QueuedNotification)
  | drainStart
  | cycleFinish (env : Env)

def stepE (s : Sys) : Event → Sys
  | .enqueue n => { s with notificationQueue := s.notificationQueue ++ [n] }
  | .drainStart =>
    if s.isProcessingQueue then s
    else
      match s.notificationQueue with
      | [] => s
      | n :: rest =>
        { s with isProcessingQueue := true, activeCycles := n :: s.activeCycles,
                 notificationQueue := rest }
  | .cycleFinish env =>
    match s.activeCycles with
    | [] => s
    | n :: restActive =>
      let r := runCycle s.sync n env
      match r.outcome with
      | .responded _ =>
        ⟨false, restActive, s.notificationQueue, r.sync⟩
      | .requeued =>
        ⟨false, restActive, n :: s.notificationQueue, r.sync⟩

/-- Process start: lock free, no active cycle, empty queue. -/
def initSys (sync0 : SyncState) : Sys := ⟨false, [], [], sync0⟩

def runEvents (s : Sys) (es : List Event) : Sys := es.foldl stepE s

/-- Single-flight invariant: at most one cycle is active, and none is
active while the lock is free. -/
def SingleFlightInv (s : Sys) : Prop :=
  s.activeCycles.length ≤ 1 ∧ (s.isProcessingQueue = false → s.activeCycles = [])

/-- Concrete environment in which every collaborator fails at the first
step (the token exchange throws). -/
def envTokenFail : Env :=
  ⟨.fail, .noSheet, .fail, .fail, fun _ => .fail, fun _ => .fail, .noSheet⟩

/-- Concrete cold-start environment: token ok, the configured sheet is
empty, the baseline profile fetch yields 50, and the sheet write
fails. -/
def envColdWriteFail : Env :=
  ⟨.ok, .empty, .ok 50, .fail, fun _ => .fail, fun _ => .fail, .error⟩

/-- Concrete cold-start environment in which the sheet read errors and
the baseline profile fetch also fails. -/
def envColdProfileFail : Env :=
  ⟨.ok, .error, .fail, .fail, fun _ => .fail, fun _ => .fail, .noSheet⟩

/-- Concrete normal-branch environment: token ok, empty history batch,
failing sheet write. -/
def envStoreWriteFail : Env :=
  ⟨.ok, .noSheet, .fail, .ok [], fun _ => .fail, fun _ => .fail, .error⟩

/-- Concrete normal-branch environment in which the history listing
fails. -/
def envHistoryFail : Env :=
  ⟨.ok, .noSheet, .fail, .fail, fun _ => .fail, fun _ => .fail, .noSheet⟩

/-- A concrete history batch in which gmail message id "abc" appears in
two records, one record has no messagesAdded, and one entry has an
empty (falsy) id. -/
def sampleRecords : List HistoryRecord :=
  [⟨some [⟨⟨some "abc"⟩⟩, ⟨⟨some "xyz"⟩⟩]⟩, ⟨none⟩, ⟨some [⟨⟨some "abc"⟩⟩, ⟨⟨some ""⟩⟩]⟩]

/-- Concrete environment delivering sampleRecords in which the tag
fetch fails for every id but "abc" and every forward call fails. -/
def envSample : Env :=
  ⟨.ok, .noSheet, .fail, .ok sampleRecords,
   fun id => if id = "abc" then .ok ["INBOX"] else .fail, fun _ => .fail, .noSheet⟩

/-- Concrete environment in which every collaborator succeeds and the
history batch is empty. -/
def envAllOk : Env :=
  ⟨.ok, .noSheet, .ok 100, .ok [], fun _ => .ok ["INBOX"], fun _ => .ok, .noSheet⟩

/-- A concrete interleaving state with the drain lock held and one
active cycle. -/
def sysLocked : Sys := ⟨true, [⟨7⟩], [], ⟨none, false, false⟩⟩

/-- A concrete interleaving state with the lock free and one queued
notification. -/
def sysReady : Sys := ⟨false, [], [⟨8⟩], ⟨none, false, false⟩⟩

/-- A concrete engine state mid cold-start: lock free, two queued
notifications, uninitialized with initInProgress set. -/
def engineInitInFlight : EngineState := ⟨false, [⟨5⟩, ⟨6⟩], ⟨none, false, true⟩⟩

/-! Helper lemmas about the per-item batch loop. -/

theorem entryIds_cons_none (e : MessageAddedEntry) (rest : List MessageAddedEntry)
    (h : truthyId e.message.id = none) :
    entryIds (e :: rest) = entryIds rest := by
  simp [entryIds, h]

theorem entryIds_cons_some (e : MessageAddedEntry) (rest : List MessageAddedEntry)
    (g : GmailMsgId) (h : truthyId e.message.id = some g) :
    entryIds (e :: rest) = g :: entryIds rest := by
  simp [entryIds, h]

theorem processEntries_cons_none (env : Env) (seen : List GmailMsgId)
    (e : MessageAddedEntry) (rest : List MessageAddedEntry)
    (h : truthyId e.message.id = none) :
    processEntries env seen (e :: rest) = processEntries env seen rest := by
  simp [processEntries, h]

theorem processEntries_cons_seen (env : Env) (seen : List GmailMsgId)
    (e : MessageAddedEntry) (rest : List MessageAddedEntry) (g : GmailMsgId)
    (h : truthyId e.message.id = some g) (hs : g ∈ seen) :
    processEntries env seen (e :: rest) = processEntries env seen rest := by
  simp [processEntries, h, hs]

theorem processEntries_cons_new (env : Env) (seen : List GmailMsgId)
    (e : MessageAddedEntry) (rest : List MessageAddedEntry) (g : GmailMsgId)
    (h : truthyId e.message.id = some g) (hs : g ∉ seen) :
    processEntries env seen (e :: rest)
      = ((processEntries env (seen ++ [g]) rest).1,
         itemCalls env g ++ (processEntries env (seen ++ [g]) rest).2) := by
  simp [processEntries, h, hs]

theorem itemCalls_count_msgGet (env : Env) (g id : GmailMsgId) :
    (itemCalls env g).count (Call.msgGet id) = if id = g then 1 else 0 := by
  unfold itemCalls
  cases h : env.msgGet g with
  | fail => by_cases hid : id = g <;> simp [List.count_cons, hid]
  | ok labelIds =>
    by_cases hid : id = g <;>
      by_cases hl : "INBOX" ∈ labelIds <;>
        simp [List.count_cons, hid, hl]

theorem itemCalls_count_forward (env : Env) (g id : GmailMsgId) :
    (itemCalls env g).count (Call.forward id) ≤ if id = g then 1 else 0 := by
  unfold itemCalls
  cases h : env.msgGet g with
  | fail => by_cases hid : id = g <;> simp [List.count_cons, hid]
  | ok labelIds =>
    by_cases hid : id = g <;>
      by_cases hl : "INBOX" ∈ labelIds <;>
        simp [List.count_cons, hid, hl]

theorem processEntries_count_msgGet (env : Env) (id : GmailMsgId)
    (entries : List MessageAddedEntry) :
    ∀ seen : List GmailMsgId,
      ((processEntries env seen entries).2).count (Call.msgGet id)
        = if id ∈ seen then 0 else if id ∈ entryIds entries then 1 else 0 := by
  induction entries with
  | nil => intro seen; simp [processEntries, entryIds]
  | cons e rest ih =>
    intro seen
    cases hid : truthyId e.message.id with
    | none =>
      rw [processEntries_cons_none env seen e rest hid, ih seen,
        entryIds_cons_none e rest hid]
    | some g =>
      rw [entryIds_cons_some e rest g hid]
      by_cases hseen : g ∈ seen
      · rw [processEntries_cons_seen env seen e rest g hid hseen, ih seen]
        by_cases hin : id ∈ seen
        · simp [hin]
        · have hne : id ≠ g := fun h => hin (h ▸ hseen)
          simp [hin, List.mem_cons, hne]
      · rw [processEntries_cons_new env seen e rest g hid hseen]
        simp only [List.count_append, itemCalls_count_msgGet, ih (seen ++ [g])]
        by_cases hids : id = g
        · subst hids
          simp [hseen, List.mem_append]
        · by_cases hin : id ∈ seen <;>
            simp [hids, hin, List.mem_append, List.mem_cons]

theorem processEntries_count_forward (env : Env) (id : GmailMsgId)
    (entries : List MessageAddedEntry) :
    ∀ seen : List GmailMsgId,
      ((processEntries env seen entries).2).count (Call.forward id)
        ≤ if id ∈ seen then 0 else 1 := by
  induction entries with
  | nil => intro seen; simp [processEntries]
  | cons e rest ih =>
    intro seen
    cases hid : truthyId e.message.id with
    | none =>
      rw [processEntries_cons_none env seen e rest hid]
      exact ih seen
    | some g =>
      by_cases hseen : g ∈ seen
      · rw [processEntries_cons_seen env seen e rest g hid hseen]
        exact ih seen
      · rw [processEntries_cons_new env seen e rest g hid hseen]
        have h1 := itemCalls_count_forward env g id
        have h2 := ih (seen ++ [g])
        rw [List.count_append]
        by_cases hids : id = g
        · subst hids
          have h1' : List.count (Call.forward id) (itemCalls env id) ≤ 1 := by
            simpa using itemCalls_count_forward env id id
          have hmem : id ∈ seen ++ [id] := by simp
          rw [if_pos hmem] at h2
          rw [if_neg hseen]
          omega
        · rw [if_neg hids] at h1
          by_cases hin : id ∈ seen
          · have hmem : id ∈ seen ++ [g] := by simp [hin]
            rw [if_pos hmem] at h2
            rw [if_pos hin]
            omega
          · have hmem : id ∉ seen ++ [g] := by simp [hin, hids]
            rw [if_neg hmem] at h2
            rw [if_neg hin]
            omega

theorem processEntries_mem_msgGet (env : Env) (id : GmailMsgId)
    (entries : List MessageAddedEntry) (hid : id ∈ entryIds entries) :
    Call.msgGet id ∈ (processEntries env [] entries).2 := by
  have h := processEntries_count_msgGet env id entries []
  rw [if_neg (List.not_mem_nil id), if_pos hid] at h
  exact List.count_pos_iff.mp (by omega)

/-! Reduction lemmas for the branches of one resolution cycle. -/

theorem runCycle_token_fail (sync : SyncState) (n : QueuedNotification) (env : Env)
    (h : env.token = TokenResult.fail) :
    runCycle sync n env = ⟨sync, [Call.token], .responded (serverErrorProcessing n)⟩ := by
  simp [runCycle, h]

theorem runCycle_token_ok (sync : SyncState) (n : QueuedNotification) (env : Env)
    (h : env.token = TokenResult.ok) :
    runCycle sync n env
      = ⟨(afterToken sync n env).sync, Call.token :: (afterToken sync n env).calls,
         (afterToken sync n env).outcome⟩ := by
  simp [runCycle, h]

theorem afterToken_initInProgress (sync : SyncState) (n : QueuedNotification) (env : Env)
    (h1 : sync.isInitialisedThisRun = false) (h2 : sync.initInProgress = true) :
    afterToken sync n env = ⟨sync, [], .requeued⟩ := by
  simp [afterToken, h1, h2]

theorem afterToken_coldStart (sync : SyncState) (n : QueuedNotification) (env : Env)
    (h1 : sync.isInitialisedThisRun = false) (h2 : sync.initInProgress = false) :
    afterToken sync n env = coldStart sync env := by
  simp [afterToken, h1, h2]

theorem afterToken_null_cursor (sync : SyncState) (n : QueuedNotification) (env : Env)
    (h1 : sync.isInitialisedThisRun = true) (h2 : sync.lastProcessedHistoryId = none) :
    afterToken sync n env = ⟨{ sync with isInitialisedThisRun := false }, [], .requeued⟩ := by
  simp [afterToken, h1, h2]

theorem afterToken_normal (sync : SyncState) (n : QueuedNotification) (env : Env)
    (last : HistoryId) (h1 : sync.isInitialisedThisRun = true)
    (h2 : sync.lastProcessedHistoryId = some last) :
    afterToken sync n env = normalProcess sync last n env := by
  simp [afterToken, h1, h2]

theorem normalProcess_stale (sync : SyncState) (last : HistoryId) (n : QueuedNotification)
    (env : Env) (h : n.currentNotificationHistoryId ≤ last) :
    normalProcess sync last n env
      = ⟨sync, [], .responded (.ok "OK - Old or duplicate event.")⟩ := by
  simp [normalProcess, h]

theorem normalProcess_history_fail (sync : SyncState) (last : HistoryId)
    (n : QueuedNotification) (env : Env)
    (h : ¬ n.currentNotificationHistoryId ≤ last) (hh : env.history = HistoryFetch.fail) :
    normalProcess sync last n env
      = ⟨sync, [Call.historyList last], .responded (serverErrorProcessing n)⟩ := by
  simp [normalProcess, h, hh]

theorem normalProcess_advance (sync : SyncState) (last : HistoryId)
    (n : QueuedNotification) (env : Env) (records : List HistoryRecord)
    (h : ¬ n.currentNotificationHistoryId ≤ last)
    (hh : env.history = HistoryFetch.ok records) :
    normalProcess sync last n env
      = ⟨{ sync with lastProcessedHistoryId := some n.currentNotificationHistoryId },
         [Call.historyList last] ++ (processEntries env [] (allEntries records)).2
           ++ (if sheetWriteCalls env.sheetWrite
               then [Call.sheetWrite n.currentNotificationHistoryId] else []),
         .responded (.ok "OK - Processing complete.")⟩ := by
  simp [normalProcess, h, hh]

theorem coldStart_profile_fail (sync : SyncState) (env : Env)
    (hr : readLastHistoryIdFromSheet env.sheetRead = none)
    (hp : env.profile = ProfileFetch.fail) :
    coldStart sync env
      = ⟨{ sync with initInProgress := false },
         (if sheetReadCalls env.sheetRead then [Call.sheetRead] else []) ++ [Call.profileGet],
         .responded (.serverError "Internal Server Error - Initialization failed.")⟩ := by
  simp [coldStart, hr, hp]

theorem coldStart_clears_initInProgress (sync : SyncState) (env : Env) :
    (coldStart sync env).sync.initInProgress = false := by
  unfold coldStart
  cases hr : readLastHistoryIdFromSheet env.sheetRead with
  | some v => simp
  | none =>
    cases hp : env.profile with
    | fail => simp
    | ok b => simp

/-! Preservation of the reachability invariant and cursor monotonicity. -/

theorem coldStart_inv (sync : SyncState) (env : Env) (h : SyncInv sync) :
    SyncInv (coldStart sync env).sync := by
  unfold coldStart
  cases hr : readLastHistoryIdFromSheet env.sheetRead with
  | some v => simp [SyncInv]
  | none =>
    cases hp : env.profile with
    | fail => simpa [SyncInv] using h
    | ok b => simp [SyncInv]

theorem afterToken_inv (sync : SyncState) (n : QueuedNotification) (env : Env)
    (h : SyncInv sync) : SyncInv (afterToken sync n env).sync := by
  cases h1 : sync.isInitialisedThisRun with
  | false =>
    cases h2 : sync.initInProgress with
    | true => rw [afterToken_initInProgress sync n env h1 h2]; simpa using h
    | false => rw [afterToken_coldStart sync n env h1 h2]; exact coldStart_inv sync env h
  | true =>
    cases hc : sync.lastProcessedHistoryId with
    | none => rw [afterToken_null_cursor sync n env h1 hc]; intro _; simpa using hc
    | some last =>
      rw [afterToken_normal sync n env last h1 hc]
      by_cases hst : n.currentNotificationHistoryId ≤ last
      · rw [normalProcess_stale sync last n env hst]; simpa using h
      · cases hh : env.history with
        | fail => rw [normalProcess_history_fail sync last n env hst hh]; simpa using h
        | ok records =>
          rw [normalProcess_advance sync last n env records hst hh]
          intro hfalse
          simp only [] at hfalse
          rw [h1] at hfalse
          exact absurd hfalse (by simp)

theorem runCycle_inv (sync : SyncState) (n : QueuedNotification) (env : Env)
    (h : SyncInv sync) : SyncInv (runCycle sync n env).sync := by
  cases ht : env.token with
  | fail => rw [runCycle_token_fail sync n env ht]; simpa using h
  | ok => rw [runCycle_token_ok sync n env ht]; exact afterToken_inv sync n env h

theorem runCycle_mono (sync : SyncState) (n : QueuedNotification) (env : Env)
    (v v' : HistoryId) (h : SyncInv sync)
    (hv : sync.lastProcessedHistoryId = some v)
    (hv' : (runCycle sync n env).sync.lastProcessedHistoryId = some v') :
    v ≤ v' := by
  cases ht : env.token with
  | fail =>
    rw [runCycle_token_fail sync n env ht] at hv'
    have hv2 : sync.lastProcessedHistoryId = some v' := by simpa using hv'
    rw [hv] at hv2
    exact le_of_eq (Option.some.inj hv2)
  | ok =>
    rw [runCycle_token_ok sync n env ht] at hv'
    cases h1 : sync.isInitialisedThisRun with
    | false =>
      rw [h h1] at hv
      exact absurd hv (by simp)
    | true =>
      rw [afterToken_normal sync n env v h1 hv] at hv'
      by_cases hst : n.currentNotificationHistoryId ≤ v
      · rw [normalProcess_stale sync v n env hst] at hv'
        have hv2 : sync.lastProcessedHistoryId = some v' := by simpa using hv'
        rw [hv] at hv2
        exact le_of_eq (Option.some.inj hv2)
      · cases hh : env.history with
        | fail =>
          rw [normalProcess_history_fail sync v n env hst hh] at hv'
          have hv2 : sync.lastProcessedHistoryId = some v' := by simpa using hv'
          rw [hv] at hv2
          exact le_of_eq (Option.some.inj hv2)
        | ok records =>
          rw [normalProcess_advance sync v n env records hst hh] at hv'
          have hv2 : n.currentNotificationHistoryId = v' := by simpa using hv'
          exact hv2 ▸ Nat.le_of_lt (Nat.lt_of_not_le hst)

theorem runCycles_inv (steps : List (QueuedNotification × Env)) :
    ∀ s : SyncState, SyncInv s → SyncInv (runCycles s steps) := by
  induction steps with
  | nil => intro s h; exact h
  | cons p rest ih =>
    intro s h
    exact ih _ (runCycle_inv s p.1 p.2 h)

theorem startupState_inv (e : StartupEnv) : SyncInv (startupState e) := by
  cases e with
  | noSheet => intro _; rfl
  | sheet t r =>
    cases t with
    | fail => intro _; rfl
    | ok =>
      cases hr : readLastHistoryIdFromSheet r with
      | some v => simp [startupState, SyncInv, hr]
      | none => simp [startupState, SyncInv, hr]

/-! Single-flight lemmas over the interleaving model. -/

theorem stepE_drainStart_locked (s : Sys) (h : s.isProcessingQueue = true) :
    stepE s Event.drainStart = s := by
  simp [stepE, h]

theorem stepE_drainStart_empty (s : Sys) (h : s.notificationQueue = []) :
    stepE s Event.drainStart = s := by
  cases hl : s.isProcessingQueue with
  | true => simp [stepE, hl]
  | false => simp [stepE, hl, h]

theorem stepE_drainStart_free (s : Sys) (n : QueuedNotification)
    (rest : List QueuedNotification)
    (hl : s.isProcessingQueue = false) (hq : s.notificationQueue = n :: rest) :
    stepE s Event.drainStart
      = { s with isProcessingQueue := true, activeCycles := n :: s.activeCycles,
                 notificationQueue := rest } := by
  simp [stepE, hl, hq]

theorem stepE_cycleFinish_idle (s : Sys) (env : Env) (h : s.activeCycles = []) :
    stepE s (Event.cycleFinish env) = s := by
  simp [stepE, h]

theorem stepE_cycleFinish_active (s : Sys) (env : Env) (n : QueuedNotification)
    (restA : List QueuedNotification) (h : s.activeCycles = n :: restA) :
    (stepE s (Event.cycleFinish env)).activeCycles = restA
    ∧ (stepE s (Event.cycleFinish env)).isProcessingQueue = false := by
  simp only [stepE, h]
  cases ho : (runCycle s.sync n env).outcome <;> simp [ho]

theorem stepE_preserves_single_flight (s : Sys) (ev : Event)
    (h : SingleFlightInv s) : SingleFlightInv (stepE s ev) := by
  obtain ⟨h1, h2⟩ := h
  cases ev with
  | enqueue n => exact ⟨h1, h2⟩
  | drainStart =>
    cases hl : s.isProcessingQueue with
    | true => rw [stepE_drainStart_locked s hl]; exact ⟨h1, h2⟩
    | false =>
      cases hq : s.notificationQueue with
      | nil => rw [stepE_drainStart_empty s hq]; exact ⟨h1, h2⟩
      | cons n rest =>
        rw [stepE_drainStart_free s n rest hl hq]
        refine ⟨?_, ?_⟩
        · simp [h2 hl]
        · intro hfalse
          exact absurd hfalse (by simp)
  | cycleFinish env =>
    cases hact : s.activeCycles with
    | nil => rw [stepE_cycleFinish_idle s env hact]; exact ⟨h1, h2⟩
    | cons n restA =>
      obtain ⟨ha, hp⟩ := stepE_cycleFinish_active s env n restA hact
      have hrest : restA = [] := by
        rw [hact] at h1
        simp only [List.length_cons] at h1
        exact List.length_eq_zero.mp (by omega)
      subst hrest
      exact ⟨by rw [ha]; simp, fun _ => ha⟩

theorem initSys_single_flight (sync0 : SyncState) : SingleFlightInv (initSys sync0) :=
  ⟨by simp [initSys], fun _ => rfl⟩

theorem runEvents_single_flight (s : Sys) (es : List Event)
    (h : SingleFlightInv s) : SingleFlightInv (runEvents s es) := by
  induction es generalizing s with
  | nil => exact h
  | cons e rest ih => exact ih (stepE s e) (stepE_preserves_single_flight s e h)

/-! The claims. -/

/-- C1 (corrected), counterexample to the claim as stated: on an
initialized engine with lastProcessedCursor 100, resolving a stale
notification (cursor 90) in a cycle whose token acquisition fails
responds with a server-error outcome, not the success outcome the claim
promises for every such cycle. -/
theorem c1_counterexample :
    (runCycle ⟨some 100, true, false⟩ ⟨90⟩ envTokenFail).outcome
      = CycleOutcome.responded (Response.serverError
          "Internal Server Error - Failed processing historyId 90.") := by
  decide

/-- C1 (amended): provided the cycle's token acquisition succeeds, for
every initialized engine state and every dequeued notification whose
cursor is at most lastProcessedCursor, the cycle makes zero Change
Source Client calls and zero Forward Sink calls, responds success
("stale/duplicate, skipped"), and leaves the sync state (hence
lastProcessedCursor) unchanged. -/
theorem c1_stale_skip (sync : SyncState) (n : QueuedNotification) (last : Nat) (env : Env)
    (h1 : sync.isInitialisedThisRun = true)
    (h2 : sync.lastProcessedHistoryId = some last)
    (h3 : n.currentNotificationHistoryId ≤ last)
    (h4 : env.token = TokenResult.ok) :
    runCycle sync n env
        = ⟨sync, [Call.token], .responded (.ok "OK - Old or duplicate event.")⟩
      ∧ (runCycle sync n env).calls.countP (fun c => c.isChangeSource) = 0
      ∧ (runCycle sync n env).calls.countP (fun c => c.isForwardSink) = 0 := by
  have he : runCycle sync n env
      = ⟨sync, [Call.token], .responded (.ok "OK - Old or duplicate event.")⟩ := by
    rw [runCycle_token_ok sync n env h4, afterToken_normal sync n env last h1 h2,
      normalProcess_stale sync last n env h3]
  refine ⟨he, ?_, ?_⟩ <;> rw [he] <;>
    simp [List.countP_cons, List.countP_nil, Call.isChangeSource, Call.isForwardSink]

/-- C1 witness: the amended theorem at a concrete initialized state,
stale notification and token-ok environment. -/
theorem c1_stale_skip_witness :
    (90 ≤ 100)
    ∧ runCycle ⟨some 100, true, false⟩ ⟨90⟩ envAllOk
        = ⟨⟨some 100, true, false⟩, [Call.token],
           .responded (.ok "OK - Old or duplicate event.")⟩ :=
  ⟨by decide,
   (c1_stale_skip ⟨some 100, true, false⟩ ⟨90⟩ 100 envAllOk rfl rfl (by decide) rfl).1⟩

/-- C2: starting from any startup state and after any sequence of
resolution cycles, a further cycle only ever overwrites a set
lastProcessedCursor with a value greater than or equal to it: the
cursor, once set, never decreases. -/
theorem c2_cursor_monotone (e : StartupEnv) (steps : List (QueuedNotification × Env))
    (n : QueuedNotification) (env : Env) (v v' : Nat)
    (hv : (runCycles (startupState e) steps).lastProcessedHistoryId = some v)
    (hv' : (runCycle (runCycles (startupState e) steps) n env).sync.lastProcessedHistoryId
        = some v') :
    v ≤ v' :=
  runCycle_mono _ n env v v' (runCycles_inv steps _ (startupState_inv e)) hv hv'

/-- C2 witness: a run seeded from the sheet at cursor 100 advanced by a
notification with cursor 105. -/
theorem c2_cursor_monotone_witness :
    (runCycles (startupState (.sheet .ok (.value 100))) []).lastProcessedHistoryId = some 100
    ∧ (runCycle (runCycles (startupState (.sheet .ok (.value 100))) [])
        ⟨105⟩ envAllOk).sync.lastProcessedHistoryId = some 105
    ∧ 100 ≤ 105 :=
  ⟨by decide, by decide,
   c2_cursor_monotone (.sheet .ok (.value 100)) [] ⟨105⟩ envAllOk 100 105
     (by decide) (by decide)⟩

/-- C3: in a normal-branch cycle whose history batch fetch succeeded,
for every pattern of per-item tag-fetch and forward outcomes the cycle
still issues a tag fetch for every distinct truthy item id of the
batch, advances lastProcessedCursor to the notification's cursor, and
responds success; no per-item failure aborts the batch or blocks the
advance. -/
theorem c3_per_item_failures (sync : SyncState) (n : QueuedNotification) (last : Nat)
    (env : Env) (records : List HistoryRecord)
    (h1 : sync.isInitialisedThisRun = true)
    (h2 : sync.lastProcessedHistoryId = some last)
    (h3 : last < n.currentNotificationHistoryId)
    (h4 : env.token = TokenResult.ok)
    (h5 : env.history = HistoryFetch.ok records) :
    (runCycle sync n env).sync.lastProcessedHistoryId = some n.currentNotificationHistoryId
    ∧ (runCycle sync n env).outcome = .responded (.ok "OK - Processing complete.")
    ∧ ∀ id ∈ entryIds (allEntries records), Call.msgGet id ∈ (runCycle sync n env).calls := by
  have hst : ¬ n.currentNotificationHistoryId ≤ last := Nat.not_le.mpr h3
  have he := runCycle_token_ok sync n env h4
  rw [afterToken_normal sync n env last h1 h2,
    normalProcess_advance sync last n env records hst h5] at he
  rw [he]
  refine ⟨rfl, rfl, ?_⟩
  intro id hid
  have hm := processEntries_mem_msgGet env id (allEntries records) hid
  simp only [List.mem_cons, List.mem_append]
  tauto

/-- C3 witness: a concrete batch in which the tag fetch for "xyz" and
every forward call fail, yet "xyz" is still visited and the cursor
advances from 100 to 105. -/
theorem c3_per_item_failures_witness :
    (100 < 105)
    ∧ (runCycle ⟨some 100, true, false⟩ ⟨105⟩ envSample).sync.lastProcessedHistoryId = some 105
    ∧ Call.msgGet "xyz" ∈ (runCycle ⟨some 100, true, false⟩ ⟨105⟩ envSample).calls :=
  ⟨by decide,
   (c3_per_item_failures ⟨some 100, true, false⟩ ⟨105⟩ 100 envSample sampleRecords
     rfl rfl (by decide) rfl rfl).1,
   (c3_per_item_failures ⟨some 100, true, false⟩ ⟨105⟩ 100 envSample sampleRecords
     rfl rfl (by decide) rfl rfl).2.2 "xyz" (by decide)⟩

/-- C4: if the fetched batch contains the same item id two or more
times, the cycle performs exactly one tag fetch and at most one forward
call for that id. -/
theorem c4_dedup (sync : SyncState) (n : QueuedNotification) (last : Nat)
    (env : Env) (records : List HistoryRecord) (id : GmailMsgId)
    (h1 : sync.isInitialisedThisRun = true)
    (h2 : sync.lastProcessedHistoryId = some last)
    (h3 : last < n.currentNotificationHistoryId)
    (h4 : env.token = TokenResult.ok)
    (h5 : env.history = HistoryFetch.ok records)
    (h6 : 2 ≤ (entryIds (allEntries records)).count id) :
    (runCycle sync n env).calls.count (Call.msgGet id) = 1
    ∧ (runCycle sync n env).calls.count (Call.forward id) ≤ 1 := by
  have hst : ¬ n.currentNotificationHistoryId ≤ last := Nat.not_le.mpr h3
  have he := runCycle_token_ok sync n env h4
  rw [afterToken_normal sync n env last h1 h2,
    normalProcess_advance sync last n env records hst h5] at he
  have hcalls : (runCycle sync n env).calls
      = Call.token :: ([Call.historyList last]
          ++ (processEntries env [] (allEntries records)).2
          ++ (if sheetWriteCalls env.sheetWrite
              then [Call.sheetWrite n.currentNotificationHistoryId] else [])) := by
    rw [he]
  have hid : id ∈ entryIds (allEntries records) := List.count_pos_iff.mp (by omega)
  have hcm := processEntries_count_msgGet env id (allEntries records) []
  rw [if_neg (List.not_mem_nil id), if_pos hid] at hcm
  have hcf := processEntries_count_forward env id (allEntries records) []
  rw [if_neg (List.not_mem_nil id)] at hcf
  rw [hcalls]
  cases hw : sheetWriteCalls env.sheetWrite with
  | true =>
    constructor
    · simp [hw, List.count_cons, List.count_append, hcm]
    · simp only [hw, if_true, List.count_cons, List.count_append]
      simp
      omega
  | false =>
    constructor
    · simp [hw, List.count_cons, List.count_append, hcm]
    · simp only [hw, if_false, List.count_cons, List.count_append]
      simp
      omega

/-- C4 witness: the concrete batch in which "abc" appears twice. -/
theorem c4_dedup_witness :
    2 ≤ (entryIds (allEntries sampleRecords)).count "abc"
    ∧ (runCycle ⟨some 100, true, false⟩ ⟨105⟩ envSample).calls.count (Call.msgGet "abc") = 1 :=
  ⟨by decide,
   (c4_dedup ⟨some 100, true, false⟩ ⟨105⟩ 100 envSample sampleRecords "abc"
     rfl rfl (by decide) rfl rfl (by decide)).1⟩

/-- C5: over every interleaving of enqueues, drain starts and cycle
completions from process start, at most one resolution cycle is ever
active; a drain start with the lock held or the queue empty changes
nothing and dequeues nothing; completing an active cycle always clears
the lock (success, failure or re-queue alike); and with the lock free a
re-triggered drain start dequeues the head of the queue into a new
active cycle. -/
theorem c5_single_flight :
    (∀ (sync0 : SyncState) (es : List Event),
      (runEvents (initSys sync0) es).activeCycles.length ≤ 1)
    ∧ (∀ s : Sys, s.isProcessingQueue = true → stepE s Event.drainStart = s)
    ∧ (∀ s : Sys, s.notificationQueue = [] → stepE s Event.drainStart = s)
    ∧ (∀ (s : Sys) (env : Env) (n : QueuedNotification) (restA : List QueuedNotification),
        s.activeCycles = n :: restA →
          (stepE s (Event.cycleFinish env)).isProcessingQueue = false)
    ∧ (∀ (s : Sys) (m : QueuedNotification) (rest : List QueuedNotification),
        s.isProcessingQueue = false → s.notificationQueue = m :: rest →
          (stepE s Event.drainStart).activeCycles = m :: s.activeCycles
          ∧ (stepE s Event.drainStart).notificationQueue = rest) := by
  refine ⟨?_, ?_, ?_, ?_, ?_⟩
  · intro sync0 es
    exact (runEvents_single_flight (initSys sync0) es (initSys_single_flight sync0)).1
  · exact fun s h => stepE_drainStart_locked s h
  · exact fun s h => stepE_drainStart_empty s h
  · intro s env n restA h
    exact (stepE_cycleFinish_active s env n restA h).2
  · intro s m rest hl hq
    rw [stepE_drainStart_free s m rest hl hq]
    exact ⟨rfl, rfl⟩

/-- C5 witness: a concrete trace and concrete locked/free states. -/
theorem c5_single_flight_witness :
    (runEvents (initSys ⟨none, false, false⟩)
      [Event.enqueue ⟨7⟩, Event.drainStart]).activeCycles.length ≤ 1
    ∧ stepE sysLocked Event.drainStart = sysLocked
    ∧ (stepE sysLocked (Event.cycleFinish envTokenFail)).isProcessingQueue = false
    ∧ (stepE sysReady Event.drainStart).activeCycles = [⟨8⟩] := by
  refine ⟨c5_single_flight.1 ⟨none, false, false⟩ [Event.enqueue ⟨7⟩, Event.drainStart],
    c5_single_flight.2.1 sysLocked rfl,
    c5_single_flight.2.2.2.1 sysLocked envTokenFail ⟨7⟩ [] rfl, ?_⟩
  have h := (c5_single_flight.2.2.2.2 sysReady ⟨8⟩ [] rfl rfl).1
  simpa [sysReady] using h

/-- C6 (corrected), counterexample to the claim as stated: a cold-start
cycle with an empty cursor store, a successful baseline fetch (cursor
50) and a failing cursor-store write contains a failing store call, yet
it responds success and sets initialized, where the claim demands a
server-error response and initialized == false on any failure inside
the branch. -/
theorem c6_counterexample :
    (runCycle ⟨none, false, false⟩ ⟨100⟩ envColdWriteFail).outcome
        = .responded (.ok "OK - Initialized state.")
    ∧ (runCycle ⟨none, false, false⟩ ⟨100⟩ envColdWriteFail).sync.isInitialisedThisRun = true
    ∧ (runCycle ⟨none, false, false⟩ ⟨100⟩ envColdWriteFail).calls
        = [Call.token, Call.sheetRead, Call.profileGet, Call.sheetWrite 50]
    ∧ writeLastHistoryIdToSheet envColdWriteFail.sheetWrite = false := by
  decide

/-- C6 (amended): in the cold-start branch a failing baseline profile
fetch yields a server-error response and leaves initialized false and
the cursor untouched, so the next notification retries cold start; a
cursor-store read failure is treated as an absent baseline and a
failing store write is ignored; initializationInFlight is cleared on
every outcome. -/
theorem c6_cold_start (sync : SyncState) (n : QueuedNotification) (env : Env)
    (h1 : sync.isInitialisedThisRun = false)
    (h2 : sync.initInProgress = false)
    (h3 : env.token = TokenResult.ok) :
    (readLastHistoryIdFromSheet env.sheetRead = none → env.profile = ProfileFetch.fail →
      (runCycle sync n env).outcome
          = .responded (.serverError "Internal Server Error - Initialization failed.")
      ∧ (runCycle sync n env).sync.isInitialisedThisRun = false
      ∧ (runCycle sync n env).sync.lastProcessedHistoryId = sync.lastProcessedHistoryId)
    ∧ (runCycle sync n env).sync.initInProgress = false := by
  have he := runCycle_token_ok sync n env h3
  rw [afterToken_coldStart sync n env h1 h2] at he
  constructor
  · intro hr hp
    rw [he, coldStart_profile_fail sync env hr hp]
    exact ⟨rfl, h1, rfl⟩
  · rw [he]
    exact coldStart_clears_initInProgress sync env

/-- C6 witness: concrete cold start in which the sheet read errors and
the baseline profile fetch fails. -/
theorem c6_cold_start_witness :
    (runCycle ⟨none, false, false⟩ ⟨100⟩ envColdProfileFail).outcome
        = .responded (.serverError "Internal Server Error - Initialization failed.")
    ∧ (runCycle ⟨none, false, false⟩ ⟨100⟩ envColdProfileFail).sync.initInProgress = false :=
  ⟨((c6_cold_start ⟨none, false, false⟩ ⟨100⟩ envColdProfileFail rfl rfl rfl).1 rfl rfl).1,
   (c6_cold_start ⟨none, false, false⟩ ⟨100⟩ envColdProfileFail rfl rfl rfl).2⟩

/-- C7: a cycle that dequeues a notification while initialization is in
flight (token already acquired) pushes it back at the front of the
queue (preserving its order relative to the rest), releases the drain
lock, sends no response, and makes no external call beyond the token
acquisition; the notification is never dropped. -/
theorem c7_requeue_front (s : EngineState) (n : QueuedNotification)
    (rest : List QueuedNotification) (env : Env)
    (h1 : s.isProcessingQueue = false)
    (h2 : s.notificationQueue = n :: rest)
    (h3 : s.sync.isInitialisedThisRun = false)
    (h4 : s.sync.initInProgress = true)
    (h5 : env.token = TokenResult.ok) :
    processItemFromQueue s env = ⟨⟨false, n :: rest, s.sync⟩, none, [Call.token]⟩ := by
  have he := runCycle_token_ok s.sync n env h5
  rw [afterToken_initInProgress s.sync n env h3 h4] at he
  simp [processItemFromQueue, h1, h2, he]

/-- C7 witness: a concrete engine mid cold-start with two queued
notifications. -/
theorem c7_requeue_front_witness :
    processItemFromQueue engineInitInFlight envAllOk
      = ⟨⟨false, [⟨5⟩, ⟨6⟩], ⟨none, false, true⟩⟩, none, [Call.token]⟩ :=
  c7_requeue_front engineInitInFlight ⟨5⟩ [⟨6⟩] envAllOk rfl rfl rfl rfl rfl

/-- C8 (corrected), counterexample to the claim as stated: in a
normal-branch cycle whose cursor-store write fails, the engine responds
success (not server-error) and advances lastProcessedCursor (the state
is not left unchanged). -/
theorem c8_counterexample :
    (runCycle ⟨some 100, true, false⟩ ⟨105⟩ envStoreWriteFail).outcome
        = .responded (.ok "OK - Processing complete.")
    ∧ (runCycle ⟨some 100, true, false⟩ ⟨105⟩ envStoreWriteFail).sync.lastProcessedHistoryId
        = some 105
    ∧ (runCycle ⟨some 100, true, false⟩ ⟨105⟩ envStoreWriteFail).calls
        = [Call.token, Call.historyList 100, Call.sheetWrite 105]
    ∧ writeLastHistoryIdToSheet envStoreWriteFail.sheetWrite = false := by
  decide

/-- C8 (amended): when the token acquisition or the history batch fetch
fails or times out, the cycle responds server-error, leaves the sync
state unchanged, and releases the lock with the rest of the queue
intact so subsequent notifications still drain; cursor-store failures,
by contrast, are swallowed (see the counterexample). -/
theorem c8_transient_failures (s : EngineState) (n : QueuedNotification)
    (rest : List QueuedNotification) (env : Env) (last : Nat)
    (h1 : s.isProcessingQueue = false)
    (h2 : s.notificationQueue = n :: rest) :
    (env.token = TokenResult.fail →
      processItemFromQueue s env
        = ⟨⟨false, rest, s.sync⟩, some (serverErrorProcessing n), [Call.token]⟩)
    ∧ (env.token = TokenResult.ok → s.sync.isInitialisedThisRun = true →
       s.sync.lastProcessedHistoryId = some last →
       ¬ n.currentNotificationHistoryId ≤ last →
       env.history = HistoryFetch.fail →
      processItemFromQueue s env
        = ⟨⟨false, rest, s.sync⟩, some (serverErrorProcessing n),
           [Call.token, Call.historyList last]⟩) := by
  constructor
  · intro ht
    have he := runCycle_token_fail s.sync n env ht
    simp [processItemFromQueue, h1, h2, he]
  · intro ht hi hc hst hh
    have he := runCycle_token_ok s.sync n env ht
    rw [afterToken_normal s.sync n env last hi hc,
      normalProcess_history_fail s.sync last n env hst hh] at he
    simp [processItemFromQueue, h1, h2, he]

/-- C8 witness: a concrete engine with one queued notification under a
token failure and under a history-listing failure. -/
theorem c8_transient_failures_witness :
    processItemFromQueue ⟨false, [⟨105⟩], ⟨some 100, true, false⟩⟩ envTokenFail
      = ⟨⟨false, [], ⟨some 100, true, false⟩⟩, some (serverErrorProcessing ⟨105⟩),
         [Call.token]⟩
    ∧ processItemFromQueue ⟨false, [⟨105⟩], ⟨some 100, true, false⟩⟩ envHistoryFail
      = ⟨⟨false, [], ⟨some 100, true, false⟩⟩, some (serverErrorProcessing ⟨105⟩),
         [Call.token, Call.historyList 100]⟩ :=
  ⟨(c8_transient_failures ⟨false, [⟨105⟩], ⟨some 100, true, false⟩⟩ ⟨105⟩ [] envTokenFail
      100 rfl rfl).1 rfl,
   (c8_transient_failures ⟨false, [⟨105⟩], ⟨some 100, true, false⟩⟩ ⟨105⟩ [] envHistoryFail
      100 rfl rfl).2 rfl rfl rfl (by decide) rfl⟩

/-- C9 (corrected), counterexample to the claim as stated: a request
whose envelope and data are present and decodable and whose cursor
field is present with value 0 is nevertheless rejected with 400 and not
enqueued, though the claim classifies such a request as well-formed. -/
theorem c9_counterexample :
    handleWebhook ⟨some ⟨some (PubSubData.decodable ⟨some 0⟩)⟩⟩ []
      = ⟨some 400, [], false⟩ := by
  decide

/-- C9 (amended): the intake endpoint responds 400 and never enqueues
when the envelope lacks message or data, when the data cannot be
decoded, or when the decoded payload's cursor field is absent or the
JS-falsy value 0; every other request is enqueued at the tail and the
drain is triggered without awaiting it. -/
theorem c9_intake (req : IntakeRequest) (queue : List QueuedNotification) :
    (req.message = none → handleWebhook req queue = ⟨some 400, queue, false⟩)
    ∧ (∀ m, req.message = some m → m.data = none →
        handleWebhook req queue = ⟨some 400, queue, false⟩)
    ∧ (∀ m, req.message = some m → m.data = some PubSubData.garbage →
        handleWebhook req queue = ⟨some 400, queue, false⟩)
    ∧ (∀ m p, req.message = some m → m.data = some (PubSubData.decodable p) →
        p.historyId = none → handleWebhook req queue = ⟨some 400, queue, false⟩)
    ∧ (∀ m p, req.message = some m → m.data = some (PubSubData.decodable p) →
        p.historyId = some 0 → handleWebhook req queue = ⟨some 400, queue, false⟩)
    ∧ (∀ m p hcv, req.message = some m → m.data = some (PubSubData.decodable p) →
        p.historyId = some hcv → 0 < hcv →
        handleWebhook req queue = ⟨none, queue ++ [⟨hcv⟩], true⟩) := by
  refine ⟨?_, ?_, ?_, ?_, ?_, ?_⟩
  · intro h; simp [handleWebhook, h]
  · intro m hm hd; simp [handleWebhook, hm, hd]
  · intro m hm hd; simp [handleWebhook, hm, hd]
  · intro m p hm hd hh; simp [handleWebhook, hm, hd, hh]
  · intro m p hm hd hh; simp [handleWebhook, hm, hd, hh]
  · intro m p hcv hm hd hh hpos
    have hne : ¬ hcv = 0 := by omega
    simp [handleWebhook, hm, hd, hh, hne]

/-- C9 witness: a well-formed request with cursor 42 is enqueued with
the drain triggered, and a request with no message is rejected. -/
theorem c9_intake_witness :
    handleWebhook ⟨some ⟨some (PubSubData.decodable ⟨some 42⟩)⟩⟩ []
      = ⟨none, [⟨42⟩], true⟩
    ∧ handleWebhook ⟨none⟩ [] = ⟨some 400, [], false⟩ :=
  ⟨(c9_intake ⟨some ⟨some (PubSubData.decodable ⟨some 42⟩)⟩⟩ []).2.2.2.2.2
      ⟨some (PubSubData.decodable ⟨some 42⟩)⟩ ⟨some 42⟩ 42 rfl rfl rfl (by decide),
   (c9_intake ⟨none⟩ []).1 rfl⟩

/-- C10: every resolution cycle performs the token acquisition first --
its call list always starts with the token call, before the cold-start
and stale checks -- and a stale notification whose token acquisition
fails receives the server-error outcome rather than the stale
success. -/
theorem c10_token_first (sync : SyncState) (n : QueuedNotification) (env : Env) :
    (runCycle sync n env).calls.head? = some Call.token
    ∧ (∀ last, sync.isInitialisedThisRun = true →
        sync.lastProcessedHistoryId = some last →
        n.currentNotificationHistoryId ≤ last →
        env.token = TokenResult.fail →
        (runCycle sync n env).outcome = .responded (serverErrorProcessing n)) := by
  constructor
  · cases ht : env.token with
    | fail => rw [runCycle_token_fail sync n env ht]; rfl
    | ok => rw [runCycle_token_ok sync n env ht]; rfl
  · intro last _ _ _ ht
    rw [runCycle_token_fail sync n env ht]

/-- C10 witness: a stale notification (cursor 80 against 200) under a
token failure. -/
theorem c10_token_first_witness :
    (runCycle ⟨some 200, true, false⟩ ⟨80⟩ envTokenFail).calls.head? = some Call.token
    ∧ (runCycle ⟨some 200, true, false⟩ ⟨80⟩ envTokenFail).outcome
        = .responded (serverErrorProcessing ⟨80⟩) :=
  ⟨(c10_token_first ⟨some 200, true, false⟩ ⟨80⟩ envTokenFail).1,
   (c10_token_first ⟨some 200, true, false⟩ ⟨80⟩ envTokenFail).2 200 rfl rfl
     (by decide) rfl⟩

end MMGmailFilterProxy
